import Mathlib

/-!
Shallow embedding of the IT/PEI registration app (src/app.py, src/db_it_pei.py).

Python runtime values flowing through the embedded code are modelled by the
inductive type `Value` (None, float NaN, strings, machine integers, finite
decimal floats and dates).  Python dictionaries / pandas Series rows are
association lists with string keys.  Python's `float(...)` string parsing is
embedded for finite decimal literals (optional sign, digits, optional
fractional part, optional surrounding whitespace); exponent forms, underscore
digit separators and the inf/nan literals are outside the embedded string
domain, as are pandas epoch-number to-datetime conversions.
-/

namespace ITPEI

/-- ASCII whitespace recognised by Python `str.strip` and the regex class `\s`
(space, tab, newline, carriage return, vertical tab, form feed). -/
def pyWs (c : Char) : Bool :=
  c.toNat = 32 || c.toNat = 9 || c.toNat = 10 || c.toNat = 13 || c.toNat = 11 || c.toNat = 12

/-- decimal digit character -/
def isDig (c : Char) : Bool := 48 ≤ c.toNat && c.toNat ≤ 57

/-- leading-whitespace removal -/
def lstrip (l : List Char) : List Char := l.dropWhile pyWs

/-- trailing-whitespace removal -/
def rstrip (l : List Char) : List Char := (l.reverse.dropWhile pyWs).reverse

def stripChars (l : List Char) : List Char := rstrip (lstrip l)

/-- Python `str.strip()` -/
def stripStr (s : String) : String := String.mk (stripChars s.data)

def pyDigitChar (m : Nat) : Char := Char.ofNat (48 + m)

/-- most-significant-first decimal digits of a natural number; fuel-based
structural recursion so that the kernel can evaluate it -/
def natDigitsGo : Nat → Nat → List Char → List Char
  | 0, _, acc => acc
  | fuel+1, n, acc =>
      if n < 10 then pyDigitChar n :: acc
      else natDigitsGo fuel (n / 10) (pyDigitChar (n % 10) :: acc)

def natDigits (n : Nat) : List Char := natDigitsGo (n + 1) n []

def digitsToNat (l : List Char) : Nat := l.foldl (fun a c => 10 * a + (c.toNat - 48)) 0

/-- Python `str(...)` of an int -/
def intRepr (k : Int) : String :=
  if k < 0 then String.mk ('-' :: natDigits k.natAbs) else String.mk (natDigits k.natAbs)

def signedInt (neg : Bool) (n : Nat) : Int := if neg then -(n : Int) else (n : Int)

def splitSign (l : List Char) : Bool × List Char :=
  match l with
  | [] => (false, [])
  | c :: t => if c = '-' then (true, t) else if c = '+' then (false, t) else (false, c :: t)

/-- `int(float(s))` for a sign-stripped finite decimal literal: the leading
digit run gives the integer part, and truncation toward zero drops the
fraction, so the result is the signed integer part. -/
def parseAfterSign (neg : Bool) (l : List Char) : Option Int :=
  match l.dropWhile isDig with
  | [] =>
      if (l.takeWhile isDig).isEmpty then Option.none
      else some (signedInt neg (digitsToNat (l.takeWhile isDig)))
  | c :: rest =>
      if c = '.' then
        if rest.all isDig && (!(l.takeWhile isDig).isEmpty || !rest.isEmpty) then
          some (signedInt neg (digitsToNat (l.takeWhile isDig)))
        else Option.none
      else Option.none

def parseCore (l : List Char) : Option Int :=
  parseAfterSign (splitSign l).1 (splitSign l).2

/-- `int(float(s))` on a Python string; `float` ignores surrounding
whitespace, and `Option.none` models `float` raising. -/
def pyFloatStrTrunc (s : String) : Option Int := parseCore (stripChars s.data)

/-- Python `int(s)` on a string: whitespace-stripped optional sign followed by
a nonempty run of decimal digits (so `int("23.0")` raises, unlike
`int(float("23.0"))`). -/
def pyIntLiteral (s : String) : Option Int :=
  let p := splitSign (stripChars s.data)
  if !p.2.isEmpty && p.2.all isDig then some (signedInt p.1 (digitsToNat p.2))
  else Option.none

structure Date where
  year : Nat
  month : Nat
  day : Nat
  deriving DecidableEq

inductive Value where
  | none : Value
  | nan : Value
  | str : String → Value
  | int : Int → Value
  | float : Bool → Nat → List Nat → Value
  | date : Date → Value
  deriving DecidableEq

def padZeros (w : Nat) (l : List Char) : List Char := List.replicate (w - l.length) '0' ++ l

/-- ISO rendering used by Python `str(datetime.date)` -/
def dateChars (d : Date) : List Char :=
  padZeros 4 (natDigits d.year) ++
    '-' :: (padZeros 2 (natDigits d.month) ++ '-' :: padZeros 2 (natDigits d.day))

/-- Python `str(x)` on embedded values -/
def pyStr : Value → String
  | .none => "None"
  | .nan => "nan"
  | .str s => s
  | .int n => intRepr n
  | .float neg ip fr =>
      (if neg then "-" else "") ++ String.mk (natDigits ip) ++ "." ++
        (if fr.isEmpty then "0" else String.mk (fr.map pyDigitChar))
  | .date d => String.mk (dateChars d)

/-- `pd.isna` on scalar values -/
def pdIsna : Value → Bool
  | .none => true
  | .nan => true
  | _ => false

/-- Python truthiness; note `bool(float("nan"))` is `True` -/
def pyTruthy : Value → Bool
  | .none => false
  | .nan => true
  | .str s => !(s = "")
  | .int n => !(n = 0)
  | .float _ ip fr => !(ip = 0 && fr.all (fun m => m = 0))
  | .date _ => true

abbrev PyDict := List (String × Value)

def alookup {α : Type} : List (String × α) → String → Option α
  | [], _ => Option.none
  | (k', v) :: t, k => if k' = k then some v else alookup t k

/-- `row.get(key, default)` on a dict or pandas Series -/
def pyGet (row : PyDict) (k : String) (d : Value) : Value := (alookup row k).getD d

/-- Python dict key assignment on an association list with unique keys:
replace the first binding in place, or append a new one. -/
def pySet : PyDict → String → Value → PyDict
  | [], k, v => [(k, v)]
  | (k', v') :: t, k, v => if k' = k then (k, v) :: t else (k', v') :: pySet t k v

/-- removal of a key; used to compare a falsy present key with an absent one -/
def eraseKey (d : PyDict) (k : String) : PyDict := d.filter (fun kv => !(kv.1 = k))

/-- `db_it_pei._clean_str`: `None` for `None` input, otherwise the stripped
string form, demoted back to `None` when blank. -/
def clean_str (x : Value) : Option String :=
  match x with
  | .none => Option.none
  | v => let s := stripStr (pyStr v); if s = "" then Option.none else some s

/-- `db_it_pei._to_int`: best-effort `int(float(x))`, `None` on failure -/
def to_int (x : Value) : Option Int :=
  match x with
  | .none => Option.none
  | .nan => Option.none
  | .int n => some n
  | .float neg ip _ => some (signedInt neg ip)
  | .str s => pyFloatStrTrunc s
  | .date _ => Option.none

def optStr : Option String → Value
  | Option.none => .none
  | some s => .str s

def optInt : Option Int → Value
  | Option.none => .none
  | some n => .int n

/-- `db_it_pei.insert_it_pei`: required-field check by truthiness, then the
in-place normalisation of `id_ue`, `anio` and `cantidad_revisiones`; the
`.ok` payload is the parameter record handed to the INSERT statement. -/
def insertNormalized (record : PyDict) : PyDict :=
  let r1 := pySet record "id_ue" (optStr (clean_str (pyGet record "id_ue" .none)))
  let r2 := pySet r1 "anio" (optInt (to_int (pyGet r1 "anio" .none)))
  pySet r2 "cantidad_revisiones" (optInt (to_int (pyGet r2 "cantidad_revisiones" .none)))

def insert_it_pei (record : PyDict) : Except String PyDict :=
  let missing := ["id_ue", "fecha_recepcion"].filter (fun k => !pyTruthy (pyGet record k .none))
  if missing.isEmpty then
    Except.ok (insertNormalized record)
  else
    Except.error ("Faltan campos obligatorios: " ++ String.intercalate ", " missing)

/-- Python `str.lower()` restricted to ASCII letters plus the accented
capitals occurring in this app's vocabulary -/
def pyLower (c : Char) : Char :=
  if 65 ≤ c.toNat && c.toNat ≤ 90 then Char.ofNat (c.toNat + 32)
  else if c = 'Á' then 'á' else if c = 'É' then 'é' else if c = 'Í' then 'í'
  else if c = 'Ó' then 'ó' else if c = 'Ú' then 'ú' else if c = 'Ñ' then 'ñ' else c

/-- `re.sub(r"\s+", " ", s)`: each maximal whitespace run becomes one space -/
def collapseWsGo : Bool → List Char → List Char
  | _, [] => []
  | prev, c :: t =>
      if pyWs c then (if prev then collapseWsGo true t else ' ' :: collapseWsGo true t)
      else c :: collapseWsGo false t

def collapseWs (l : List Char) : List Char := collapseWsGo false l

def replaceUnderscores (l : List Char) : List Char := l.map (fun c => if c = '_' then ' ' else c)

/-- `_safe_str` (app.py lines 95-96) -/
def safe_str (x : Value) : String := if pdIsna x then "" else stripStr (pyStr x)

/-- Python `int(x)` on an arbitrary value, `Option.none` models raising -/
def pyIntRaw : Value → Option Int
  | .int n => some n
  | .float neg ip _ => some (signedInt neg ip)
  | .str s => pyIntLiteral s
  | _ => Option.none

/-- `_safe_int` (app.py lines 98-102) -/
def safe_int (x : Value) : Int := (pyIntRaw x).getD 0

/-- `pd.to_datetime(s).date()` embedded for ISO `YYYY-MM-DD` strings -/
def parseIsoDate (s : String) : Option Date :=
  let l := stripChars s.data
  let y := l.takeWhile isDig
  match l.dropWhile isDig with
  | '-' :: r1 =>
    let m := r1.takeWhile isDig
    match r1.dropWhile isDig with
    | '-' :: r2 =>
      let d := r2.takeWhile isDig
      if (r2.dropWhile isDig).isEmpty && !y.isEmpty && !m.isEmpty && !d.isEmpty
          && 1 ≤ digitsToNat m && digitsToNat m ≤ 12
          && 1 ≤ digitsToNat d && digitsToNat d ≤ 31 then
        some ⟨digitsToNat y, digitsToNat m, digitsToNat d⟩
      else Option.none
    | _ => Option.none
  | _ => Option.none

/-- `pd.to_datetime(x).date()`; epoch-number conversions of bare ints/floats
are outside the embedded domain -/
def pdToDate : Value → Option Date
  | .date d => some d
  | .str s => parseIsoDate s
  | _ => Option.none

/-- `_safe_date` (app.py lines 104-110) -/
def safe_date (x : Value) : Option Date :=
  if pdIsna x then Option.none
  else if stripStr (pyStr x) = "" then Option.none
  else pdToDate x

/-- the key-canonicalisation pipeline of `norm_choice` (app.py lines 113-117):
safe string, lower-case, collapse whitespace runs, underscores to spaces, strip -/
def canonChoice (v : Value) : String :=
  String.mk (stripChars (replaceUnderscores (collapseWs ((safe_str v).data.map pyLower))))

/-- `norm_choice` (app.py lines 113-117) -/
def norm_choice (val : Value) (mapping : List (String × String)) (default : String) : String :=
  (alookup mapping (canonChoice val)).getD default

def estado_map : List (String × String) :=
  [("emitido", "Emitido"), ("en proceso", "En proceso"), ("proceso", "En proceso")]

def vigencia_map : List (String × String) :=
  [("sí", "Sí"), ("si", "Sí"), ("no", "No")]

def tipo_pei_map : List (String × String) :=
  [("formulado", "Formulado"), ("ampliado", "Ampliado"), ("actualizado", "Actualizado")]

def etapa_map : List (String × String) :=
  [("it emitido", "IT Emitido"),
   ("para emisión de it", "Para emisión de IT"),
   ("para emision de it", "Para emisión de IT"),
   ("revisión dncp", "Revisión DNCP"),
   ("revision dncp", "Revisión DNCP"),
   ("revisión dnse", "Revisión DNSE"),
   ("revision dnse", "Revisión DNSE"),
   ("revisión dnpe", "Revisión DNPE"),
   ("revision dnpe", "Revisión DNPE"),
   ("subsanación del pliego", "Subsanación del pliego"),
   ("subsanacion del pliego", "Subsanación del pliego")]

/-- `int(float(x))` for `normalizar_codigo`, `Option.none` models raising -/
def pyFloatTrunc : Value → Option Int
  | .int n => some n
  | .float neg ip _ => some (signedInt neg ip)
  | .str s => pyFloatStrTrunc s
  | _ => Option.none

/-- `normalizar_codigo` (app.py lines 20-26, repeated verbatim at 388-394) -/
def normalizar_codigo (x : Value) : String :=
  if pdIsna x then ""
  else match pyFloatTrunc x with
    | some k => intRepr k
    | Option.none => stripStr (pyStr x)

structure FormState where
  tipo_pei : String
  etapa_revision : String
  fecha_recepcion : Option Date
  articulacion : String
  fecha_derivacion : Option Date
  periodo : String
  cantidad_revisiones : Int
  comentario : String
  vigencia : String
  estado : String
  expediente : String
  fecha_it : Option Date
  fecha_oficio : Option Date
  numero_it : String
  numero_oficio : String
  deriving DecidableEq

/-- `FORM_DEFAULTS` (app.py lines 51-67) -/
def FORM_DEFAULTS : FormState :=
  { tipo_pei := "Formulado"
    etapa_revision := "IT Emitido"
    fecha_recepcion := Option.none
    articulacion := ""
    fecha_derivacion := Option.none
    periodo := ""
    cantidad_revisiones := 0
    comentario := ""
    vigencia := "Sí"
    estado := "En proceso"
    expediente := ""
    fecha_it := Option.none
    fecha_oficio := Option.none
    numero_it := ""
    numero_oficio := "" }

/-- `set_form_state_from_row` (app.py lines 92-206); the produced value is the
form dict stored into the session state.  The embedding is a total function:
every helper it calls returns a default on malformed input, as in the source. -/
def set_form_state_from_row (row : PyDict) : FormState :=
  let tipo_pei_val := pyGet row "tipo_pei" (pyGet row "Tipo de PEI" (.str "Formulado"))
  let etapa_val := pyGet row "etapas_revision"
    (pyGet row "etapa_revision" (pyGet row "Etapas de revisión" (.str "IT Emitido")))
  let periodo_val := pyGet row "periodo_pei" (pyGet row "periodo" (pyGet row "Periodo PEI" (.str "")))
  let comentario_val := pyGet row "comentario_adicional_emisor_it"
    (pyGet row "comentario" (pyGet row "Comentario adicional/ Emisor de I.T" (.str "")))
  { tipo_pei := norm_choice tipo_pei_val tipo_pei_map "Formulado"
    etapa_revision := norm_choice etapa_val etapa_map "IT Emitido"
    fecha_recepcion := safe_date (pyGet row "fecha_recepcion" (pyGet row "Fecha de recepción" .none))
    articulacion := safe_str (pyGet row "articulacion" (pyGet row "Articulación" (.str "")))
    fecha_derivacion := safe_date (pyGet row "fecha_derivacion" (pyGet row "Fecha de derivación" .none))
    periodo := safe_str periodo_val
    cantidad_revisiones := safe_int (pyGet row "cantidad_revisiones" (pyGet row "Cantidad de revisiones" (.int 0)))
    comentario := safe_str comentario_val
    vigencia := norm_choice (pyGet row "vigencia" (pyGet row "Vigencia" (.str "Sí"))) vigencia_map "Sí"
    estado := norm_choice (pyGet row "estado" (pyGet row "Estado" (.str "En proceso"))) estado_map "En proceso"
    expediente := safe_str (pyGet row "expediente" (pyGet row "Expediente" (.str "")))
    fecha_it := safe_date (pyGet row "fecha_it" (pyGet row "Fecha de I.T" .none))
    numero_it := safe_str (pyGet row "numero_it" (pyGet row "Número de I.T" (.str "")))
    fecha_oficio := safe_date (pyGet row "fecha_oficio" (pyGet row "Fecha Oficio" (pyGet row "Fecha del Oficio" .none)))
    numero_oficio := safe_str (pyGet row "numero_oficio" (pyGet row "Número Oficio" (pyGet row "Número del Oficio" (.str "")))) }

/-- every current-name and legacy-name key consulted by `set_form_state_from_row` -/
def candidateKeys : List String :=
  ["tipo_pei", "Tipo de PEI",
   "etapas_revision", "etapa_revision", "Etapas de revisión",
   "periodo_pei", "periodo", "Periodo PEI",
   "comentario_adicional_emisor_it", "comentario", "Comentario adicional/ Emisor de I.T",
   "fecha_recepcion", "Fecha de recepción",
   "articulacion", "Articulación",
   "fecha_derivacion", "Fecha de derivación",
   "cantidad_revisiones", "Cantidad de revisiones",
   "vigencia", "Vigencia",
   "estado", "Estado",
   "expediente", "Expediente",
   "fecha_it", "Fecha de I.T",
   "numero_it", "Número de I.T",
   "fecha_oficio", "Fecha Oficio", "Fecha del Oficio",
   "numero_oficio", "Número Oficio", "Número del Oficio"]

/-- the raw widget values available at submit time (app.py lines 521-669) -/
structure FormInputs where
  tipo_pei : String
  etapa_revision : String
  fecha_recepcion : Date
  articulacion : String
  fecha_derivacion : Date
  periodo : String
  cantidad_revisiones : Int
  comentario : String
  vigencia : String
  estado : String
  expediente : String
  fecha_it : Option Date
  fecha_oficio : Date
  numero_it : String
  numero_oficio : String
  deriving DecidableEq

/-- `puede_emitir` (app.py lines 655-659) -/
def puede_emitir (i : FormInputs) : Bool :=
  !(stripStr i.expediente = "") && !(i.fecha_it = Option.none) && !(stripStr i.numero_it = "")

/-- `re.match(r"^\d{4}-\d{4}$", s)` viewed as a Boolean: four digits, a dash,
four digits; `$` also matches just before one trailing newline -/
def matchesPeriodo (s : String) : Bool :=
  match s.data with
  | [a, b, c, d, e, f, g, h, i] =>
      isDig a && isDig b && isDig c && isDig d && e = '-'
        && isDig f && isDig g && isDig h && isDig i
  | [a, b, c, d, e, f, g, h, i, j] =>
      isDig a && isDig b && isDig c && isDig d && e = '-'
        && isDig f && isDig g && isDig h && isDig i && j = '\n'
  | _ => false

/-- the condition under which app.py lines 599-601 display the period-format
error; the displayed error does not stop the submission path -/
def periodo_format_error (periodo : String) : Bool :=
  !(periodo = "") && !matchesPeriodo periodo

def optDate : Option Date → Value
  | Option.none => .none
  | some d => .date d

/-- the `cambios` changeset built in update mode (app.py lines 683-695) -/
def cambios (responsable_actual : String) (i : FormInputs) : PyDict :=
  [("estado", .str i.estado),
   ("responsable_institucional", .str responsable_actual),
   ("cantidad_revisiones", .int (if i.cantidad_revisiones = 0 then 0 else i.cantidad_revisiones)),
   ("fecha_derivacion", .date i.fecha_derivacion),
   ("etapas_revision", .str i.etapa_revision),
   ("comentario_adicional_emisor_it", .str i.comentario),
   ("expediente", .str i.expediente),
   ("fecha_it", optDate i.fecha_it),
   ("numero_it", .str i.numero_it),
   ("fecha_oficio", .date i.fecha_oficio),
   ("numero_oficio", .str i.numero_oficio)]

/-- the `nuevo_pg` record built in insert mode (app.py lines 702-726) -/
def nuevo_pg (codigo : String) (anio : Int) (responsable_actual : String) (usuario : Value)
    (i : FormInputs) : PyDict :=
  [("id_ue", .str (stripStr codigo)),
   ("anio", .int anio),
   ("fecha_recepcion", .date i.fecha_recepcion),
   ("periodo_pei", .str i.periodo),
   ("vigencia", .str i.vigencia),
   ("tipo_pei", .str i.tipo_pei),
   ("articulacion", .str i.articulacion),
   ("estado", .str i.estado),
   ("responsable_institucional", .str responsable_actual),
   ("cantidad_revisiones", .int (if i.cantidad_revisiones = 0 then 0 else i.cantidad_revisiones)),
   ("fecha_derivacion", .date i.fecha_derivacion),
   ("etapas_revision", .str i.etapa_revision),
   ("comentario_adicional_emisor_it", .str i.comentario),
   ("expediente", .str i.expediente),
   ("fecha_it", optDate i.fecha_it),
   ("numero_it", .str i.numero_it),
   ("fecha_oficio", .date i.fecha_oficio),
   ("numero_oficio", .str i.numero_oficio),
   ("created_by", usuario)]

inductive StoreCall where
  | insertCall : PyDict → StoreCall
  | updateCall : Int → PyDict → StoreCall
  deriving DecidableEq

/-- truthiness of the `edit_id` session value in `edit_mode and edit_id` -/
def truthyEditId : Option Int → Bool
  | Option.none => false
  | some n => !(n = 0)

/-- the submit handler (app.py lines 671-728): the Emitido gate stops with no
store call (`st.stop`); otherwise edit mode issues the UPDATE with `cambios`
and fresh mode issues the INSERT with `nuevo_pg`.  The period-format check of
lines 599-601 only displays an error (`periodo_format_error` above) and does
not gate this path. -/
def handle_submit (edit_mode : Bool) (edit_id : Option Int) (codigo : String) (anio : Int)
    (responsable_actual : String) (usuario : Value) (i : FormInputs) : Option StoreCall :=
  if i.estado = "Emitido" && !puede_emitir i then Option.none
  else if edit_mode && truthyEditId edit_id then
    some (.updateCall (edit_id.getD 0) (cambios responsable_actual i))
  else some (.insertCall (nuevo_pg codigo anio responsable_actual usuario i))

/-- Modelled from the spec: the SET clause of the missing `update_it_pei`
overwrites exactly the columns named in the changeset and leaves every other
column of the row as it was. -/
def applyChangeset (fields cs : PyDict) : PyDict :=
  fields.map (fun kv => match alookup cs kv.1 with | some v => (kv.1, v) | Option.none => kv)

/-- Modelled from the spec: `update_it_pei` is called by app.py (line 697) but
is not defined in any file under src/.  Spec section 4.3: `update(id, changeset)`
applies only the fields present in the changeset to the row with matching
identifier and fails with NotFoundError if no row matches. -/
def update_it_pei (table : List (Int × PyDict)) (id : Int) (changeset : PyDict) :
    Except String (List (Int × PyDict)) :=
  if table.all (fun r => !(r.1 = id)) then Except.error "NotFoundError"
  else Except.ok (table.map (fun r => if r.1 = id then (r.1, applyChangeset r.2 changeset) else r))

/-! ### Library lemmas about whitespace stripping and decimal digits -/

lemma head?_dropWhile {α : Type} (p : α → Bool) :
    ∀ (l : List α) (c : α), (l.dropWhile p).head? = some c → p c = false := by
  intro l
  induction l with
  | nil => intro c h; simp [List.dropWhile] at h
  | cons a t ih =>
      intro c h
      rw [List.dropWhile_cons] at h
      cases hp : p a
      · rw [hp] at h
        simp at h
        exact h ▸ hp
      · rw [hp] at h
        simp at h
        exact ih c h

lemma dropWhile_eq_self_of_head {α : Type} (p : α → Bool) (l : List α)
    (h : ∀ c, l.head? = some c → p c = false) : l.dropWhile p = l := by
  cases l with
  | nil => rfl
  | cons a t =>
      have ha := h a rfl
      rw [List.dropWhile_cons, ha]
      simp

lemma dropWhile_idem {α : Type} (p : α → Bool) (l : List α) :
    (l.dropWhile p).dropWhile p = l.dropWhile p :=
  dropWhile_eq_self_of_head p _ (fun c hc => head?_dropWhile p l c hc)

lemma dropWhile_eq_self_of_all {α : Type} (p : α → Bool) (l : List α)
    (h : ∀ c ∈ l, p c = false) : l.dropWhile p = l := by
  apply dropWhile_eq_self_of_head
  intro c hc
  cases l with
  | nil => simp at hc
  | cons a t =>
      simp only [List.head?_cons, Option.some.injEq] at hc
      exact hc ▸ h a (by simp)

lemma head?_append_left {α : Type} (a t : List α) (h : a ≠ []) : (a ++ t).head? = a.head? := by
  cases a with
  | nil => exact absurd rfl h
  | cons x xs => rfl

lemma rstrip_append (l : List Char) : ∃ t, l = rstrip l ++ t := by
  refine ⟨(l.reverse.takeWhile pyWs).reverse, ?_⟩
  have h := List.takeWhile_append_dropWhile pyWs l.reverse
  calc l = l.reverse.reverse := (List.reverse_reverse l).symm
    _ = (l.reverse.takeWhile pyWs ++ l.reverse.dropWhile pyWs).reverse := by rw [h]
    _ = rstrip l ++ (l.reverse.takeWhile pyWs).reverse := by
          rw [List.reverse_append]; rfl

lemma lstrip_rstrip_lstrip (l : List Char) : lstrip (rstrip (lstrip l)) = rstrip (lstrip l) := by
  apply dropWhile_eq_self_of_head
  intro c hc
  by_cases hn : rstrip (lstrip l) = []
  · rw [hn] at hc; simp at hc
  · obtain ⟨t, ht⟩ := rstrip_append (lstrip l)
    have h1 : (lstrip l).head? = some c := by
      rw [ht, head?_append_left _ _ hn]; exact hc
    exact head?_dropWhile pyWs l c h1

lemma rstrip_idem (l : List Char) : rstrip (rstrip l) = rstrip l := by
  unfold rstrip
  rw [List.reverse_reverse, dropWhile_idem]

lemma stripChars_idem (l : List Char) : stripChars (stripChars l) = stripChars l := by
  unfold stripChars
  rw [lstrip_rstrip_lstrip, rstrip_idem]

lemma stripChars_of_no_ws (l : List Char) (h : ∀ c ∈ l, pyWs c = false) : stripChars l = l := by
  unfold stripChars lstrip rstrip
  rw [dropWhile_eq_self_of_all pyWs l h,
    dropWhile_eq_self_of_all pyWs l.reverse (fun c hc => h c (List.mem_reverse.mp hc))]
  exact List.reverse_reverse l

lemma isDig_toNat {c : Char} (h : isDig c = true) : 48 ≤ c.toNat ∧ c.toNat ≤ 57 := by
  simpa [isDig, Bool.and_eq_true, decide_eq_true_eq] using h

lemma not_ws_of_isDig {c : Char} (h : isDig c = true) : pyWs c = false := by
  obtain ⟨h1, _⟩ := isDig_toNat h
  simp only [pyWs, Bool.or_eq_false_iff, decide_eq_false_iff_not]
  omega

lemma ne_dash_of_isDig {c : Char} (h : isDig c = true) : c ≠ '-' := by
  intro e; subst e; exact absurd h (by decide)

lemma ne_plus_of_isDig {c : Char} (h : isDig c = true) : c ≠ '+' := by
  intro e; subst e; exact absurd h (by decide)

lemma pyDigitChar_isDig {m : Nat} (h : m < 10) : isDig (pyDigitChar m) = true := by
  interval_cases m <;> decide

lemma pyDigitChar_val {m : Nat} (h : m < 10) : (pyDigitChar m).toNat - 48 = m := by
  interval_cases m <;> decide

lemma digitsToNat_append (l : List Char) (c : Char) :
    digitsToNat (l ++ [c]) = 10 * digitsToNat l + (c.toNat - 48) := by
  simp [digitsToNat, List.foldl_append]

lemma natDigitsGo_spec :
    ∀ (fuel n : Nat) (acc : List Char), n < fuel →
      ∃ ds, natDigitsGo fuel n acc = ds ++ acc ∧ ds ≠ [] ∧
        (∀ c ∈ ds, isDig c = true) ∧ digitsToNat ds = n := by
  intro fuel
  induction fuel with
  | zero => intro n acc h; omega
  | succ f ih =>
      intro n acc h
      by_cases h10 : n < 10
      · refine ⟨[pyDigitChar n], ?_, by simp, ?_, ?_⟩
        · simp [natDigitsGo, h10]
        · intro c hc; simp at hc; subst hc; exact pyDigitChar_isDig h10
        · simp [digitsToNat]
          have := pyDigitChar_val h10
          omega
      · have hf : n / 10 < f := by
          have h1 : n / 10 < n := Nat.div_lt_self (by omega) (by omega)
          omega
        obtain ⟨ds, hd1, hd2, hd3, hd4⟩ := ih (n / 10) (pyDigitChar (n % 10) :: acc) hf
        refine ⟨ds ++ [pyDigitChar (n % 10)], ?_, by simp, ?_, ?_⟩
        · simp only [natDigitsGo, if_neg h10]
          rw [hd1, List.append_assoc]
          rfl
        · intro c hc
          rcases List.mem_append.mp hc with h1 | h1
          · exact hd3 c h1
          · simp at h1; subst h1
            exact pyDigitChar_isDig (Nat.mod_lt _ (by omega))
        · rw [digitsToNat_append, hd4, pyDigitChar_val (Nat.mod_lt _ (by omega))]
          omega

lemma natDigits_spec (n : Nat) :
    natDigits n ≠ [] ∧ (∀ c ∈ natDigits n, isDig c = true) ∧ digitsToNat (natDigits n) = n := by
  obtain ⟨ds, h1, h2, h3, h4⟩ := natDigitsGo_spec (n + 1) n [] (by omega)
  unfold natDigits
  rw [h1, List.append_nil]
  exact ⟨h2, h3, h4⟩

lemma takeWhile_eq_self_of_all {α : Type} (p : α → Bool) (l : List α)
    (h : ∀ c ∈ l, p c = true) : l.takeWhile p = l := by
  have := @List.takeWhile_append_of_pos _ p l [] h
  simpa using this

lemma dropWhile_eq_nil_of_all {α : Type} (p : α → Bool) (l : List α)
    (h : ∀ c ∈ l, p c = true) : l.dropWhile p = [] := by
  have := @List.dropWhile_append_of_pos _ p l [] h
  simpa using this

lemma parseAfterSign_digits (neg : Bool) (l : List Char) (hne : l ≠ [])
    (hall : ∀ c ∈ l, isDig c = true) :
    parseAfterSign neg l = some (signedInt neg (digitsToNat l)) := by
  unfold parseAfterSign
  rw [takeWhile_eq_self_of_all _ _ hall, dropWhile_eq_nil_of_all _ _ hall]
  simp [List.isEmpty_iff, hne]

lemma splitSign_no_sign (l : List Char) (hne : l ≠ []) (hall : ∀ c ∈ l, isDig c = true) :
    splitSign l = (false, l) := by
  cases l with
  | nil => exact absurd rfl hne
  | cons x xs =>
      have hx := hall x (by simp)
      simp only [splitSign, if_neg (ne_dash_of_isDig hx), if_neg (ne_plus_of_isDig hx)]

lemma parseCore_digits (l : List Char) (hne : l ≠ []) (hall : ∀ c ∈ l, isDig c = true) :
    parseCore l = some ((digitsToNat l : Nat) : Int) := by
  unfold parseCore
  rw [splitSign_no_sign l hne hall]
  have h := parseAfterSign_digits false l hne hall
  simpa [signedInt] using h

lemma parseCore_digit_dash (a r : List Char) (hne : a ≠ []) (hall : ∀ c ∈ a, isDig c = true) :
    parseCore (a ++ '-' :: r) = Option.none := by
  have hsplit : splitSign (a ++ '-' :: r) = (false, a ++ '-' :: r) := by
    cases a with
    | nil => exact absurd rfl hne
    | cons x xs =>
        have hx := hall x (by simp)
        simp only [List.cons_append, splitSign,
          if_neg (ne_dash_of_isDig hx), if_neg (ne_plus_of_isDig hx)]
  unfold parseCore
  rw [hsplit]
  unfold parseAfterSign
  rw [List.dropWhile_append_of_pos hall, List.dropWhile_cons_of_neg (by decide)]
  simp

lemma intRepr_data (k : Int) :
    (intRepr k).data = if k < 0 then '-' :: natDigits k.natAbs else natDigits k.natAbs := by
  unfold intRepr
  split <;> rfl

lemma pyFloatStrTrunc_intRepr (k : Int) : pyFloatStrTrunc (intRepr k) = some k := by
  obtain ⟨h1, h2, h3⟩ := natDigits_spec k.natAbs
  unfold pyFloatStrTrunc
  rw [intRepr_data]
  by_cases hk : k < 0
  · rw [if_pos hk]
    have hno : ∀ c ∈ '-' :: natDigits k.natAbs, pyWs c = false := by
      intro c hc
      rcases List.mem_cons.mp hc with h | h
      · subst h; decide
      · exact not_ws_of_isDig (h2 c h)
    rw [stripChars_of_no_ws _ hno]
    unfold parseCore
    have hsplit : splitSign ('-' :: natDigits k.natAbs) = (true, natDigits k.natAbs) := by
      simp [splitSign]
    rw [hsplit]
    show parseAfterSign true (natDigits k.natAbs) = some k
    rw [parseAfterSign_digits true _ h1 h2, h3]
    have hx : -((k.natAbs : Nat) : Int) = k := by omega
    rw [show signedInt true k.natAbs = -((k.natAbs : Nat) : Int) from rfl, hx]
  · rw [if_neg hk]
    rw [stripChars_of_no_ws _ (fun c hc => not_ws_of_isDig (h2 c hc))]
    rw [parseCore_digits _ h1 h2]
    rw [h3]
    have hx : ((k.natAbs : Nat) : Int) = k := by omega
    rw [hx]

lemma padZeros_digits (w : Nat) (l : List Char) (h : ∀ c ∈ l, isDig c = true) :
    ∀ c ∈ padZeros w l, isDig c = true := by
  intro c hc
  rcases List.mem_append.mp hc with h1 | h1
  · rw [List.eq_of_mem_replicate h1]; decide
  · exact h c h1

lemma padZeros_ne_nil (w : Nat) (l : List Char) (h : l ≠ []) : padZeros w l ≠ [] := by
  unfold padZeros
  intro he
  exact h (List.append_eq_nil.mp he).2

lemma dateChars_no_ws (d : Date) : ∀ c ∈ dateChars d, pyWs c = false := by
  intro c hc
  unfold dateChars at hc
  have hy := padZeros_digits 4 (natDigits d.year) (natDigits_spec d.year).2.1
  have hm := padZeros_digits 2 (natDigits d.month) (natDigits_spec d.month).2.1
  have hd := padZeros_digits 2 (natDigits d.day) (natDigits_spec d.day).2.1
  rcases List.mem_append.mp hc with h1 | h1
  · exact not_ws_of_isDig (hy c h1)
  · rcases List.mem_cons.mp h1 with h2 | h2
    · subst h2; decide
    · rcases List.mem_append.mp h2 with h3 | h3
      · exact not_ws_of_isDig (hm c h3)
      · rcases List.mem_cons.mp h3 with h4 | h4
        · subst h4; decide
        · exact not_ws_of_isDig (hd c h4)

lemma parse_dateChars (d : Date) : parseCore (dateChars d) = Option.none := by
  unfold dateChars
  exact parseCore_digit_dash _ _ (padZeros_ne_nil _ _ (natDigits_spec d.year).1)
    (padZeros_digits 4 _ (natDigits_spec d.year).2.1)

lemma normalizar_on_intRepr (k : Int) : normalizar_codigo (.str (intRepr k)) = intRepr k := by
  have h : pyFloatStrTrunc (intRepr k) = some k := pyFloatStrTrunc_intRepr k
  simp [normalizar_codigo, pdIsna, pyFloatTrunc, h]

/-! ### Claim C7: `normalizar_codigo` -/

/-- C7: `normalizar_codigo` is idempotent; it maps "23.0", "23" and " 23 "
to "23"; empty or missing (None/NaN) input yields the empty string;
float-parseable input yields the integer-truncated decimal string; any other
input yields its trimmed string form. -/
theorem normalizar_codigo_spec :
    (∀ x : Value, normalizar_codigo (.str (normalizar_codigo x)) = normalizar_codigo x)
    ∧ normalizar_codigo (.str "23.0") = "23"
    ∧ normalizar_codigo (.str "23") = "23"
    ∧ normalizar_codigo (.str " 23 ") = "23"
    ∧ normalizar_codigo .none = ""
    ∧ normalizar_codigo .nan = ""
    ∧ normalizar_codigo (.str "") = ""
    ∧ (∀ s k, pyFloatStrTrunc s = some k → normalizar_codigo (.str s) = intRepr k)
    ∧ (∀ s, pyFloatStrTrunc s = Option.none → normalizar_codigo (.str s) = stripStr s) := by
  refine ⟨?_, by decide, by decide, by decide, rfl, rfl, by decide, ?_, ?_⟩
  · intro x
    cases x with
    | none => decide
    | nan => decide
    | str s =>
        cases hp : pyFloatStrTrunc s with
        | some k =>
            have h1 : normalizar_codigo (.str s) = intRepr k := by
              simp [normalizar_codigo, pdIsna, pyFloatTrunc, hp]
            rw [h1, normalizar_on_intRepr]
        | none =>
            have h1 : normalizar_codigo (.str s) = stripStr s := by
              simp [normalizar_codigo, pdIsna, pyFloatTrunc, pyStr, hp]
            rw [h1]
            have h2 : pyFloatStrTrunc (stripStr s) = Option.none := by
              unfold pyFloatStrTrunc at hp ⊢
              rw [show (stripStr s).data = stripChars s.data from rfl, stripChars_idem]
              exact hp
            have h3 : stripStr (stripStr s) = stripStr s := by
              show String.mk (stripChars (stripChars s.data)) = String.mk (stripChars s.data)
              rw [stripChars_idem]
            simp [normalizar_codigo, pdIsna, pyFloatTrunc, pyStr, h2, h3]
    | int n =>
        have h1 : normalizar_codigo (.int n) = intRepr n := by
          simp [normalizar_codigo, pdIsna, pyFloatTrunc]
        rw [h1, normalizar_on_intRepr]
    | float neg ip fr =>
        have h1 : normalizar_codigo (.float neg ip fr) = intRepr (signedInt neg ip) := by
          simp [normalizar_codigo, pdIsna, pyFloatTrunc]
        rw [h1, normalizar_on_intRepr]
    | date d =>
        have hs : stripChars (dateChars d) = dateChars d :=
          stripChars_of_no_ws _ (dateChars_no_ws d)
        have h1 : normalizar_codigo (.date d) = String.mk (dateChars d) := by
          simp [normalizar_codigo, pdIsna, pyFloatTrunc, pyStr, stripStr, hs]
        rw [h1]
        have h2 : pyFloatStrTrunc (String.mk (dateChars d)) = Option.none := by
          unfold pyFloatStrTrunc
          rw [show (String.mk (dateChars d)).data = dateChars d from rfl, hs]
          exact parse_dateChars d
        have h3 : stripStr (String.mk (dateChars d)) = String.mk (dateChars d) := by
          show String.mk (stripChars (dateChars d)) = String.mk (dateChars d)
          rw [hs]
        simp [normalizar_codigo, pdIsna, pyFloatTrunc, pyStr, h2, h3]
  · intro s k h
    simp [normalizar_codigo, pdIsna, pyFloatTrunc, h]
  · intro s h
    simp [normalizar_codigo, pdIsna, pyFloatTrunc, pyStr, h]

/-- C7 witness: the idempotence component applied at the concrete
input " 23.5 ". -/
theorem normalizar_codigo_spec_witness :
    normalizar_codigo (.str (normalizar_codigo (.str " 23.5 "))) = normalizar_codigo (.str " 23.5 ") :=
  normalizar_codigo_spec.1 (.str " 23.5 ")

/-! ### Claim C8: `norm_choice` -/

/-- C8: `norm_choice` canonicalises its input (safe string, lower-case,
whitespace-run collapse, underscores to spaces, strip — the pipeline embedded
as `canonChoice`), then looks the result up in the given mapping, returning
the mapped canonical value on a hit and the supplied default unchanged on a
miss; in particular `norm_choice "SI" vigencia_map "No" = "Sí"`. -/
theorem norm_choice_spec :
    norm_choice (.str "SI") vigencia_map "No" = "Sí"
    ∧ norm_choice (.str "REVISIÓN_DNCP") etapa_map "IT Emitido" = "Revisión DNCP"
    ∧ (∀ v m d, alookup m (canonChoice v) = Option.none → norm_choice v m d = d)
    ∧ (∀ v m d c, alookup m (canonChoice v) = some c → norm_choice v m d = c) := by
  refine ⟨by decide, by decide, ?_, ?_⟩
  · intro v m d h
    simp [norm_choice, h]
  · intro v m d c h
    simp [norm_choice, h]

/-- C8 witness: the miss component applied at the unmapped input "zzz". -/
theorem norm_choice_spec_witness :
    norm_choice (.str "zzz") vigencia_map "No" = "No" :=
  norm_choice_spec.2.2.1 (.str "zzz") vigencia_map "No" (by decide)

/-! ### Claim C9: `to_clean_string` -/

/-- C9 counterexample: the gateway-level cleaner `_clean_str` returns `None`,
not the empty string, for null input. -/
theorem clean_str_null_not_empty :
    clean_str Value.none = Option.none ∧ clean_str Value.none ≠ some "" :=
  ⟨rfl, by decide⟩

/-- C9 amended: the app-level `_safe_str` returns the whitespace-trimmed
string form of every non-missing input and the empty string for missing/NaN
input; the gateway-level `_clean_str` instead returns `None` for null input
and for inputs whose trimmed form is blank, and the trimmed string otherwise. -/
theorem to_clean_string_spec :
    (∀ v : Value, pdIsna v = false → safe_str v = stripStr (pyStr v))
    ∧ safe_str Value.none = "" ∧ safe_str Value.nan = ""
    ∧ clean_str Value.none = Option.none
    ∧ (∀ v : Value, v ≠ Value.none →
        clean_str v =
          (if stripStr (pyStr v) = "" then Option.none else some (stripStr (pyStr v)))) := by
  refine ⟨?_, rfl, rfl, rfl, ?_⟩
  · intro v h
    simp [safe_str, h]
  · intro v h
    cases v
    case none => exact absurd rfl h
    all_goals rfl

/-- C9 witness: the amended theorem applied at " a " (non-missing) and at the
blank string "  ". -/
theorem to_clean_string_spec_witness :
    safe_str (Value.str " a ") = stripStr (pyStr (Value.str " a "))
    ∧ clean_str (Value.str "  ") =
        (if stripStr (pyStr (Value.str "  ")) = "" then Option.none
         else some (stripStr (pyStr (Value.str "  ")))) :=
  ⟨to_clean_string_spec.1 _ rfl, to_clean_string_spec.2.2.2.2 _ (by decide)⟩

deriving instance DecidableEq for Except

/-! ### Association-list lemmas -/

lemma alookup_pySet_ne (d : PyDict) (k k' : String) (v : Value) (h : ¬ k = k') :
    alookup (pySet d k v) k' = alookup d k' := by
  induction d with
  | nil => simp [pySet, alookup, h]
  | cons a t ih =>
      obtain ⟨ka, va⟩ := a
      by_cases hk : ka = k
      · subst hk
        simp [pySet, alookup, h]
      · simp [pySet, hk, alookup, ih]

lemma alookup_eraseKey_ne (d : PyDict) (k k' : String) (h : ¬ k = k') :
    alookup (eraseKey d k) k' = alookup d k' := by
  induction d with
  | nil => rfl
  | cons a t ih =>
      obtain ⟨ka, va⟩ := a
      by_cases hk : ka = k
      · subst hk
        simp [eraseKey, alookup, h] at *
        exact ih
      · simp [eraseKey, alookup, hk] at *
        rw [← ih]

lemma alookup_eraseKey_self (d : PyDict) (k : String) :
    alookup (eraseKey d k) k = Option.none := by
  induction d with
  | nil => rfl
  | cons a t ih =>
      obtain ⟨ka, va⟩ := a
      by_cases hk : ka = k
      · simpa [eraseKey, hk] using ih
      · simp [eraseKey, alookup, hk] at *
        exact ih

lemma insert_it_pei_error_of_missing (r : PyDict)
    (h : (["id_ue", "fecha_recepcion"].filter
        (fun k => !pyTruthy (pyGet r k Value.none))).isEmpty = false) :
    ∃ msg, insert_it_pei r = Except.error msg := by
  refine ⟨"Faltan campos obligatorios: " ++ String.intercalate ", "
      (["id_ue", "fecha_recepcion"].filter (fun k => !pyTruthy (pyGet r k Value.none))), ?_⟩
  simp only [insert_it_pei]
  rw [h]
  rfl

/-! ### Claim C4: `insert_it_pei` required fields -/

/-- C4 counterexample: a record in which both required keys are present (with
`id_ue` bound to the empty string) is rejected by `insert_it_pei` rather than
persisted as a new row. -/
theorem insert_it_pei_present_but_rejected :
    alookup [("id_ue", Value.str ""), ("fecha_recepcion", Value.str "2024-01-10")] "id_ue"
        = some (Value.str "")
    ∧ alookup [("id_ue", Value.str ""), ("fecha_recepcion", Value.str "2024-01-10")]
        "fecha_recepcion" = some (Value.str "2024-01-10")
    ∧ insert_it_pei [("id_ue", Value.str ""), ("fecha_recepcion", Value.str "2024-01-10")]
        = Except.error "Faltan campos obligatorios: id_ue" :=
  ⟨by decide, by decide, by decide⟩

/-- C4 amended: `insert_it_pei` raises the missing-required-fields ValueError
whenever `id_ue` or `fecha_recepcion` is absent or falsy, before executing any
SQL; when both are truthy it executes the INSERT, persisting the supplied
fields (with `id_ue` cleaned and `anio`, `cantidad_revisiones` coerced). -/
theorem insert_it_pei_spec :
    (∀ r : PyDict,
        pyTruthy (pyGet r "id_ue" .none) = false
          ∨ pyTruthy (pyGet r "fecha_recepcion" .none) = false →
        ∃ msg, insert_it_pei r = Except.error msg)
    ∧ (∀ r : PyDict,
        pyTruthy (pyGet r "id_ue" .none) = true →
        pyTruthy (pyGet r "fecha_recepcion" .none) = true →
        ∃ out, insert_it_pei r = Except.ok out ∧
          ∀ k, ¬ k = "id_ue" → ¬ k = "anio" → ¬ k = "cantidad_revisiones" →
            alookup out k = alookup r k) := by
  constructor
  · intro r h
    apply insert_it_pei_error_of_missing
    rcases h with h | h
    · simp [List.filter_cons, h]
    · simp [List.filter_cons, h]
      split <;> simp
  · intro r h1 h2
    have hf : (["id_ue", "fecha_recepcion"].filter
        (fun k => !pyTruthy (pyGet r k Value.none))) = [] := by
      simp [List.filter_cons, h1, h2]
    refine ⟨insertNormalized r, ?_, ?_⟩
    · simp only [insert_it_pei]
      rw [hf]
      rfl
    · intro k hk1 hk2 hk3
      simp only [insertNormalized]
      rw [alookup_pySet_ne _ _ _ _ (fun e => hk3 e.symm),
        alookup_pySet_ne _ _ _ _ (fun e => hk2 e.symm),
        alookup_pySet_ne _ _ _ _ (fun e => hk1 e.symm)]

/-- C4 witness: the amended success component applied at a concrete truthy
record; the non-normalised field `estado` is carried through to the row. -/
theorem insert_it_pei_spec_witness :
    ∃ out, insert_it_pei [("id_ue", Value.str "23"),
        ("fecha_recepcion", Value.date ⟨2024, 1, 10⟩),
        ("estado", Value.str "En proceso")] = Except.ok out
      ∧ alookup out "estado" = some (Value.str "En proceso") := by
  obtain ⟨out, hA, hB⟩ := insert_it_pei_spec.2 [("id_ue", Value.str "23"),
    ("fecha_recepcion", Value.date ⟨2024, 1, 10⟩),
    ("estado", Value.str "En proceso")] (by decide) (by decide)
  exact ⟨out, hA, (hB "estado" (by decide) (by decide) (by decide)).trans (by decide)⟩

/-! ### Claim C10: truthiness, not key presence -/

/-- C10: the required-field check of `insert_it_pei` tests truthiness, not
key presence: a record binding `id_ue` or `fecha_recepcion` to a falsy value
is rejected with the missing-required-fields error exactly as if the key were
absent, and no SQL is executed. -/
theorem insert_it_pei_falsy_as_absent (r : PyDict) (k : String) (v : Value)
    (hk : k = "id_ue" ∨ k = "fecha_recepcion")
    (hv : alookup r k = some v) (ht : pyTruthy v = false) :
    (∃ msg, insert_it_pei r = Except.error msg)
    ∧ insert_it_pei r = insert_it_pei (eraseKey r k) := by
  have hget : pyTruthy (pyGet r k Value.none) = false := by
    simp [pyGet, hv, ht]
  have herase : pyTruthy (pyGet (eraseKey r k) k Value.none) = false := by
    simp [pyGet, alookup_eraseKey_self]
    rfl
  rcases hk with hk | hk
  · subst hk
    have hother : pyGet (eraseKey r "id_ue") "fecha_recepcion" Value.none
        = pyGet r "fecha_recepcion" Value.none := by
      unfold pyGet
      rw [alookup_eraseKey_ne r "id_ue" "fecha_recepcion" (by decide)]
    constructor
    · apply insert_it_pei_error_of_missing
      cases hc : pyTruthy (pyGet r "fecha_recepcion" Value.none) <;>
        simp [List.filter_cons, hget, hc]
    · unfold insert_it_pei
      cases hc : pyTruthy (pyGet r "fecha_recepcion" Value.none) <;>
        simp [List.filter_cons, hget, hc, herase, hother]
  · subst hk
    have hother : pyGet (eraseKey r "fecha_recepcion") "id_ue" Value.none
        = pyGet r "id_ue" Value.none := by
      unfold pyGet
      rw [alookup_eraseKey_ne r "fecha_recepcion" "id_ue" (by decide)]
    constructor
    · apply insert_it_pei_error_of_missing
      cases hc : pyTruthy (pyGet r "id_ue" Value.none) <;>
        simp [List.filter_cons, hget, hc]
    · unfold insert_it_pei
      cases hc : pyTruthy (pyGet r "id_ue" Value.none) <;>
        simp [List.filter_cons, hget, hc, herase, hother]

/-- C10 witness: applied at a record with a present-but-empty `id_ue`. -/
theorem insert_it_pei_falsy_as_absent_witness :
    (∃ msg, insert_it_pei [("id_ue", Value.str ""), ("fecha_recepcion", Value.str "d")]
        = Except.error msg)
    ∧ insert_it_pei [("id_ue", Value.str ""), ("fecha_recepcion", Value.str "d")]
        = insert_it_pei
            (eraseKey [("id_ue", Value.str ""), ("fecha_recepcion", Value.str "d")] "id_ue") :=
  insert_it_pei_falsy_as_absent _ "id_ue" (Value.str "") (Or.inl rfl) (by decide) (by decide)

/-! ### Claim C5: the update operation (spec-modelled) -/

/-- C5 (spec-modelled): `update_it_pei` fails with NotFoundError when no row
matches the identifier; otherwise it applies exactly the fields present in
the changeset to the matching row and leaves all other rows and all other
fields of the row unchanged. -/
theorem update_it_pei_spec :
    (∀ t (id : Int) cs, (∀ r ∈ t, ¬ r.1 = id) →
        update_it_pei t id cs = Except.error "NotFoundError")
    ∧ (∀ t (id : Int) cs r, r ∈ t → ¬ r.1 = id →
        ∀ t', update_it_pei t id cs = Except.ok t' → r ∈ t')
    ∧ (∀ t (id : Int) cs fs, (id, fs) ∈ t →
        ∃ t', update_it_pei t id cs = Except.ok t' ∧ (id, applyChangeset fs cs) ∈ t')
    ∧ (∀ fs cs k, alookup cs k = Option.none →
        alookup (applyChangeset fs cs) k = alookup fs k)
    ∧ (∀ fs cs k v, alookup cs k = some v → k ∈ fs.map Prod.fst →
        alookup (applyChangeset fs cs) k = some v) := by
  refine ⟨?_, ?_, ?_, ?_, ?_⟩
  · intro t id cs h
    have hall : t.all (fun r => !(r.1 = id)) = true := by
      simp only [List.all_eq_true, Bool.not_eq_true', decide_eq_false_iff_not]
      exact h
    simp [update_it_pei, hall]
  · intro t id cs r hr hne t' ht'
    unfold update_it_pei at ht'
    split at ht'
    · exact absurd ht' (by simp)
    · simp only [Except.ok.injEq] at ht'
      subst ht'
      have hmem := List.mem_map_of_mem
        (fun r : Int × PyDict => if r.1 = id then (r.1, applyChangeset r.2 cs) else r) hr
      simpa [hne] using hmem
  · intro t id cs fs hmem
    have hx : ¬ t.all (fun r => !(r.1 = id)) = true := by
      simp only [List.all_eq_true]
      intro hall
      have h2 := hall (id, fs) hmem
      simp at h2
    refine ⟨t.map (fun r => if r.1 = id then (r.1, applyChangeset r.2 cs) else r), ?_, ?_⟩
    · simp [update_it_pei, hx]
    · have h3 := List.mem_map_of_mem
        (fun r : Int × PyDict => if r.1 = id then (r.1, applyChangeset r.2 cs) else r) hmem
      simpa using h3
  · intro fs cs k h
    induction fs with
    | nil => simp [applyChangeset, alookup]
    | cons a t ih =>
        obtain ⟨ka, va⟩ := a
        by_cases hk : ka = k
        · subst hk
          simp [applyChangeset, alookup, h]
        · cases hca : alookup cs ka <;>
            · simp only [applyChangeset, List.map_cons, hca, alookup, hk, if_neg hk]
              simpa [applyChangeset] using ih
  · intro fs cs k v h hmem
    induction fs with
    | nil => simp at hmem
    | cons a t ih =>
        obtain ⟨ka, va⟩ := a
        by_cases hk : ka = k
        · subst hk
          simp [applyChangeset, alookup, h]
        · have hmem' : k ∈ t.map Prod.fst := by
            rw [List.map_cons] at hmem
            rcases List.mem_cons.mp hmem with he | he
            · exact absurd he.symm hk
            · exact he
          cases hca : alookup cs ka <;>
            · simp only [applyChangeset, List.map_cons, hca, alookup, hk, if_neg hk]
              simpa [applyChangeset] using ih hmem'

/-- C5 witness: the matching-row component applied at a one-row table. -/
theorem update_it_pei_spec_witness :
    ∃ t', update_it_pei [(1, [("estado", Value.str "En proceso")])] 1
        [("estado", Value.str "Emitido")] = Except.ok t'
      ∧ (1, applyChangeset [("estado", Value.str "En proceso")]
          [("estado", Value.str "Emitido")]) ∈ t' :=
  update_it_pei_spec.2.2.1 [(1, [("estado", Value.str "En proceso")])] 1
    [("estado", Value.str "Emitido")] [("estado", Value.str "En proceso")] (by decide)

/-! ### Claim C1: frozen keys never in the update changeset -/

/-- C1: for every submit that reaches the update operation, the changeset
passed to it contains none of the five frozen keys, for all form inputs. -/
theorem cambios_no_frozen_keys (edit_mode : Bool) (edit_id : Option Int) (codigo : String)
    (anio : Int) (responsable_actual : String) (usuario : Value) (i : FormInputs)
    (id : Int) (cs : PyDict)
    (h : handle_submit edit_mode edit_id codigo anio responsable_actual usuario i
        = some (StoreCall.updateCall id cs)) :
    ∀ k ∈ ["fecha_recepcion", "periodo_pei", "vigencia", "tipo_pei", "articulacion"],
      alookup cs k = Option.none := by
  intro k hk
  unfold handle_submit at h
  split at h
  · exact absurd h (by simp)
  · split at h
    · simp only [Option.some.injEq, StoreCall.updateCall.injEq] at h
      obtain ⟨h1, h2⟩ := h
      subst h2
      fin_cases hk <;> simp [cambios, alookup]
    · exact absurd h (by simp)

/-- concrete form inputs used by witnesses: a valid in-process submission -/
def wInputs : FormInputs :=
  ⟨"Formulado", "IT Emitido", ⟨2024, 1, 10⟩, "PEDN 2050", ⟨2024, 1, 11⟩, "2025-2027",
    0, "", "Sí", "En proceso", "", some ⟨2024, 1, 12⟩, ⟨2024, 1, 13⟩, "", ""⟩

/-- C1 witness: applied at a concrete edit-mode submission. -/
theorem cambios_no_frozen_keys_witness :
    alookup (cambios "R" wInputs) "periodo_pei" = Option.none :=
  cambios_no_frozen_keys true (some 5) "23" 2025 "R" Value.none wInputs 5
    (cambios "R" wInputs) (by decide) "periodo_pei" (by decide)

/-! ### Claim C3: the Emitido gate -/

/-- C3: a submission with status "Emitido" and an empty expediente, an empty
numero_it or an absent fecha_it stops before any store call; when all three
are present the submission proceeds to a store call. -/
theorem emitido_gate_spec (edit_mode : Bool) (edit_id : Option Int) (codigo : String)
    (anio : Int) (responsable_actual : String) (usuario : Value) (i : FormInputs)
    (h : i.estado = "Emitido") :
    ((stripStr i.expediente = "" ∨ i.fecha_it = Option.none ∨ stripStr i.numero_it = "") →
      handle_submit edit_mode edit_id codigo anio responsable_actual usuario i = Option.none)
    ∧ ((¬ stripStr i.expediente = "" ∧ ¬ i.fecha_it = Option.none ∧ ¬ stripStr i.numero_it = "") →
      ∃ call, handle_submit edit_mode edit_id codigo anio responsable_actual usuario i
        = some call) := by
  constructor
  · intro hbad
    have hp : puede_emitir i = false := by
      unfold puede_emitir
      rcases hbad with hb | hb | hb <;> simp [hb]
    unfold handle_submit
    simp [h, hp]
  · intro hgood
    have hp : puede_emitir i = true := by
      unfold puede_emitir
      simp [hgood.1, hgood.2.1, hgood.2.2]
    unfold handle_submit
    have hc : (decide (i.estado = "Emitido") && !puede_emitir i) = false := by
      simp [h, hp]
    simp only [hc, Bool.false_eq_true, if_false]
    by_cases he : (edit_mode && truthyEditId edit_id) = true
    · rw [if_pos he]
      exact ⟨_, rfl⟩
    · rw [if_neg he]
      exact ⟨_, rfl⟩

/-- concrete form inputs: status Emitido with an empty expediente -/
def wInputsBad : FormInputs :=
  ⟨"Formulado", "IT Emitido", ⟨2024, 1, 10⟩, "PEDN 2050", ⟨2024, 1, 11⟩, "2025-2027",
    0, "", "Sí", "Emitido", "", some ⟨2024, 1, 12⟩, ⟨2024, 1, 13⟩, "IT-9", ""⟩

/-- C3 witness: the blocking component applied at a concrete Emitido
submission with empty expediente. -/
theorem emitido_gate_spec_witness :
    handle_submit false Option.none "23" 2025 "R" Value.none wInputsBad = Option.none :=
  (emitido_gate_spec false Option.none "23" 2025 "R" Value.none wInputsBad rfl).1
    (Or.inl (by decide))

/-! ### Claim C2: the period-format check does not block persistence -/

/-- concrete form inputs: NEW-mode submission with malformed period "25-27" -/
def wInputsC2 : FormInputs :=
  ⟨"Formulado", "IT Emitido", ⟨2024, 1, 10⟩, "PEDN 2050", ⟨2024, 1, 11⟩, "25-27",
    0, "", "Sí", "En proceso", "", some ⟨2024, 1, 12⟩, ⟨2024, 1, 13⟩, "", ""⟩

/-- C2 (code bug): "2025-2027" matches the period pattern and "25-27" does
not, and lines 599-601 display the format error for "25-27"; but no stop
follows the displayed error, so the NEW-mode submit still reaches the insert
store call and the malformed period is persisted in the row. -/
theorem periodo_error_not_blocking :
    matchesPeriodo "2025-2027" = true
    ∧ matchesPeriodo "25-27" = false
    ∧ periodo_format_error "25-27" = true
    ∧ handle_submit false Option.none "23" 2025 "R" Value.none wInputsC2
        = some (StoreCall.insertCall (nuevo_pg "23" 2025 "R" Value.none wInputsC2))
    ∧ alookup (nuevo_pg "23" 2025 "R" Value.none wInputsC2) "periodo_pei"
        = some (Value.str "25-27")
    ∧ insert_it_pei (nuevo_pg "23" 2025 "R" Value.none wInputsC2)
        = Except.ok (insertNormalized (nuevo_pg "23" 2025 "R" Value.none wInputsC2))
    ∧ alookup (insertNormalized (nuevo_pg "23" 2025 "R" Value.none wInputsC2)) "periodo_pei"
        = some (Value.str "25-27") :=
  ⟨by decide, by decide, by decide, by decide, by decide, by decide, by decide⟩

/-! ### Claim C6: the Record Mapper degrades to defaults -/

lemma pyGet_nan_or (row : PyDict) (k : String) (d : Value)
    (h : alookup row k = Option.none ∨ alookup row k = some Value.nan) :
    pyGet row k d = d ∨ pyGet row k d = Value.nan := by
  unfold pyGet
  rcases h with h | h <;> simp [h]

lemma pyGet_chain2 (row : PyDict) (k1 k2 : String) (d : Value)
    (h1 : alookup row k1 = Option.none ∨ alookup row k1 = some Value.nan)
    (h2 : alookup row k2 = Option.none ∨ alookup row k2 = some Value.nan) :
    pyGet row k1 (pyGet row k2 d) = d ∨ pyGet row k1 (pyGet row k2 d) = Value.nan := by
  rcases pyGet_nan_or row k2 d h2 with h | h
  · rw [h]
    exact pyGet_nan_or row k1 d h1
  · rw [h]
    rcases pyGet_nan_or row k1 Value.nan h1 with h' | h' <;> exact Or.inr h'

lemma pyGet_chain3 (row : PyDict) (k1 k2 k3 : String) (d : Value)
    (h1 : alookup row k1 = Option.none ∨ alookup row k1 = some Value.nan)
    (h2 : alookup row k2 = Option.none ∨ alookup row k2 = some Value.nan)
    (h3 : alookup row k3 = Option.none ∨ alookup row k3 = some Value.nan) :
    pyGet row k1 (pyGet row k2 (pyGet row k3 d)) = d
      ∨ pyGet row k1 (pyGet row k2 (pyGet row k3 d)) = Value.nan := by
  rcases pyGet_chain2 row k2 k3 d h2 h3 with h | h
  · rw [h]
    exact pyGet_nan_or row k1 d h1
  · rw [h]
    rcases pyGet_nan_or row k1 Value.nan h1 with h' | h' <;> exact Or.inr h'

/-- a candidate column name that is absent from the source row, or present
but bound to the malformed NaN value -/
abbrev missingOrNaN (row : PyDict) (k : String) : Prop :=
  alookup row k = Option.none ∨ alookup row k = some Value.nan

/-- C6: the Record Mapper is embedded as a total function, so it never
raises; and per logical field: whenever all of that field's current-name and
legacy-name candidate keys are missing from the row, or each present one is
bound to a malformed (NaN) value, the produced form state holds that field's
documented default from `FORM_DEFAULTS` — regardless of what the row holds
under any other field's keys. -/
theorem set_form_state_field_defaults :
    (∀ row : PyDict, missingOrNaN row "tipo_pei" → missingOrNaN row "Tipo de PEI" →
      (set_form_state_from_row row).tipo_pei = FORM_DEFAULTS.tipo_pei)
    ∧
    (∀ row : PyDict, missingOrNaN row "etapas_revision" → missingOrNaN row "etapa_revision" → missingOrNaN row "Etapas de revisión" →
      (set_form_state_from_row row).etapa_revision = FORM_DEFAULTS.etapa_revision)
    ∧
    (∀ row : PyDict, missingOrNaN row "fecha_recepcion" → missingOrNaN row "Fecha de recepción" →
      (set_form_state_from_row row).fecha_recepcion = FORM_DEFAULTS.fecha_recepcion)
    ∧
    (∀ row : PyDict, missingOrNaN row "articulacion" → missingOrNaN row "Articulación" →
      (set_form_state_from_row row).articulacion = FORM_DEFAULTS.articulacion)
    ∧
    (∀ row : PyDict, missingOrNaN row "fecha_derivacion" → missingOrNaN row "Fecha de derivación" →
      (set_form_state_from_row row).fecha_derivacion = FORM_DEFAULTS.fecha_derivacion)
    ∧
    (∀ row : PyDict, missingOrNaN row "periodo_pei" → missingOrNaN row "periodo" → missingOrNaN row "Periodo PEI" →
      (set_form_state_from_row row).periodo = FORM_DEFAULTS.periodo)
    ∧
    (∀ row : PyDict, missingOrNaN row "cantidad_revisiones" → missingOrNaN row "Cantidad de revisiones" →
      (set_form_state_from_row row).cantidad_revisiones = FORM_DEFAULTS.cantidad_revisiones)
    ∧
    (∀ row : PyDict, missingOrNaN row "comentario_adicional_emisor_it" → missingOrNaN row "comentario" → missingOrNaN row "Comentario adicional/ Emisor de I.T" →
      (set_form_state_from_row row).comentario = FORM_DEFAULTS.comentario)
    ∧
    (∀ row : PyDict, missingOrNaN row "vigencia" → missingOrNaN row "Vigencia" →
      (set_form_state_from_row row).vigencia = FORM_DEFAULTS.vigencia)
    ∧
    (∀ row : PyDict, missingOrNaN row "estado" → missingOrNaN row "Estado" →
      (set_form_state_from_row row).estado = FORM_DEFAULTS.estado)
    ∧
    (∀ row : PyDict, missingOrNaN row "expediente" → missingOrNaN row "Expediente" →
      (set_form_state_from_row row).expediente = FORM_DEFAULTS.expediente)
    ∧
    (∀ row : PyDict, missingOrNaN row "fecha_it" → missingOrNaN row "Fecha de I.T" →
      (set_form_state_from_row row).fecha_it = FORM_DEFAULTS.fecha_it)
    ∧
    (∀ row : PyDict, missingOrNaN row "numero_it" → missingOrNaN row "Número de I.T" →
      (set_form_state_from_row row).numero_it = FORM_DEFAULTS.numero_it)
    ∧
    (∀ row : PyDict, missingOrNaN row "fecha_oficio" → missingOrNaN row "Fecha Oficio" → missingOrNaN row "Fecha del Oficio" →
      (set_form_state_from_row row).fecha_oficio = FORM_DEFAULTS.fecha_oficio)
    ∧
    (∀ row : PyDict, missingOrNaN row "numero_oficio" → missingOrNaN row "Número Oficio" → missingOrNaN row "Número del Oficio" →
      (set_form_state_from_row row).numero_oficio = FORM_DEFAULTS.numero_oficio) := by
  refine ⟨?_, ?_, ?_, ?_, ?_, ?_, ?_, ?_, ?_, ?_, ?_, ?_, ?_, ?_, ?_⟩
  · intro row h1 h2
    show norm_choice (pyGet row "tipo_pei" (pyGet row "Tipo de PEI" (Value.str "Formulado"))) tipo_pei_map "Formulado" = "Formulado"
    rcases pyGet_chain2 row "tipo_pei" "Tipo de PEI" (Value.str "Formulado") h1 h2 with hv | hv <;> rw [hv] <;> decide
  · intro row h1 h2 h3
    show norm_choice (pyGet row "etapas_revision" (pyGet row "etapa_revision" (pyGet row "Etapas de revisión" (Value.str "IT Emitido")))) etapa_map "IT Emitido" = "IT Emitido"
    rcases pyGet_chain3 row "etapas_revision" "etapa_revision" "Etapas de revisión" (Value.str "IT Emitido") h1 h2 h3 with hv | hv <;> rw [hv] <;> decide
  · intro row h1 h2
    show safe_date (pyGet row "fecha_recepcion" (pyGet row "Fecha de recepción" Value.none)) = Option.none
    rcases pyGet_chain2 row "fecha_recepcion" "Fecha de recepción" (Value.none) h1 h2 with hv | hv <;> rw [hv] <;> decide
  · intro row h1 h2
    show safe_str (pyGet row "articulacion" (pyGet row "Articulación" (Value.str ""))) = ""
    rcases pyGet_chain2 row "articulacion" "Articulación" (Value.str "") h1 h2 with hv | hv <;> rw [hv] <;> decide
  · intro row h1 h2
    show safe_date (pyGet row "fecha_derivacion" (pyGet row "Fecha de derivación" Value.none)) = Option.none
    rcases pyGet_chain2 row "fecha_derivacion" "Fecha de derivación" (Value.none) h1 h2 with hv | hv <;> rw [hv] <;> decide
  · intro row h1 h2 h3
    show safe_str (pyGet row "periodo_pei" (pyGet row "periodo" (pyGet row "Periodo PEI" (Value.str "")))) = ""
    rcases pyGet_chain3 row "periodo_pei" "periodo" "Periodo PEI" (Value.str "") h1 h2 h3 with hv | hv <;> rw [hv] <;> decide
  · intro row h1 h2
    show safe_int (pyGet row "cantidad_revisiones" (pyGet row "Cantidad de revisiones" (Value.int 0))) = 0
    rcases pyGet_chain2 row "cantidad_revisiones" "Cantidad de revisiones" (Value.int 0) h1 h2 with hv | hv <;> rw [hv] <;> decide
  · intro row h1 h2 h3
    show safe_str (pyGet row "comentario_adicional_emisor_it" (pyGet row "comentario" (pyGet row "Comentario adicional/ Emisor de I.T" (Value.str "")))) = ""
    rcases pyGet_chain3 row "comentario_adicional_emisor_it" "comentario" "Comentario adicional/ Emisor de I.T" (Value.str "") h1 h2 h3 with hv | hv <;> rw [hv] <;> decide
  · intro row h1 h2
    show norm_choice (pyGet row "vigencia" (pyGet row "Vigencia" (Value.str "Sí"))) vigencia_map "Sí" = "Sí"
    rcases pyGet_chain2 row "vigencia" "Vigencia" (Value.str "Sí") h1 h2 with hv | hv <;> rw [hv] <;> decide
  · intro row h1 h2
    show norm_choice (pyGet row "estado" (pyGet row "Estado" (Value.str "En proceso"))) estado_map "En proceso" = "En proceso"
    rcases pyGet_chain2 row "estado" "Estado" (Value.str "En proceso") h1 h2 with hv | hv <;> rw [hv] <;> decide
  · intro row h1 h2
    show safe_str (pyGet row "expediente" (pyGet row "Expediente" (Value.str ""))) = ""
    rcases pyGet_chain2 row "expediente" "Expediente" (Value.str "") h1 h2 with hv | hv <;> rw [hv] <;> decide
  · intro row h1 h2
    show safe_date (pyGet row "fecha_it" (pyGet row "Fecha de I.T" Value.none)) = Option.none
    rcases pyGet_chain2 row "fecha_it" "Fecha de I.T" (Value.none) h1 h2 with hv | hv <;> rw [hv] <;> decide
  · intro row h1 h2
    show safe_str (pyGet row "numero_it" (pyGet row "Número de I.T" (Value.str ""))) = ""
    rcases pyGet_chain2 row "numero_it" "Número de I.T" (Value.str "") h1 h2 with hv | hv <;> rw [hv] <;> decide
  · intro row h1 h2 h3
    show safe_date (pyGet row "fecha_oficio" (pyGet row "Fecha Oficio" (pyGet row "Fecha del Oficio" Value.none))) = Option.none
    rcases pyGet_chain3 row "fecha_oficio" "Fecha Oficio" "Fecha del Oficio" (Value.none) h1 h2 h3 with hv | hv <;> rw [hv] <;> decide
  · intro row h1 h2 h3
    show safe_str (pyGet row "numero_oficio" (pyGet row "Número Oficio" (pyGet row "Número del Oficio" (Value.str "")))) = ""
    rcases pyGet_chain3 row "numero_oficio" "Número Oficio" "Número del Oficio" (Value.str "") h1 h2 h3 with hv | hv <;> rw [hv] <;> decide

/-- C6 witness: a mixed row — live `estado` and `numero_it` values next to a
NaN-bound `tipo_pei` and no reception-date keys — still defaults the
`tipo_pei` and `fecha_recepcion` fields. -/
theorem set_form_state_field_defaults_witness :
    (set_form_state_from_row [("estado", Value.str "Emitido"), ("tipo_pei", Value.nan),
        ("numero_it", Value.str "IT-7")]).tipo_pei = FORM_DEFAULTS.tipo_pei
    ∧ (set_form_state_from_row [("estado", Value.str "Emitido"), ("tipo_pei", Value.nan),
        ("numero_it", Value.str "IT-7")]).fecha_recepcion = FORM_DEFAULTS.fecha_recepcion :=
  ⟨set_form_state_field_defaults.1 _ (Or.inr (by decide)) (Or.inl (by decide)),
   set_form_state_field_defaults.2.2.1 _ (Or.inl (by decide)) (Or.inl (by decide))⟩

end ITPEI
